import Mathlib

/-!
Verification development for the osm-public-space-mapper traffic-area core.

Shallow embedding of
  src/osm_public_space_mapper/data_analysis/analyse_traffic_area.py
  src/osm_public_space_mapper/data_analysis/get_undefined_space.py
Python floats are modelled as exact rationals, shapely geometries as a
syntax tree of the geometric operations the code performs, Python dicts as
association lists, and Python exceptions as the error case of Except.
-/

/-- Shapely buffer cap styles (shapely default is round). -/
inductive CapStyle where
  | round
  | flat
  | square
deriving DecidableEq

/-- Shapely buffer join styles (shapely default is round). -/
inductive JoinStyle where
  | round
  | mitre
  | bevel
deriving DecidableEq

/-- Shapely geometries, embedded as the tree of geometric operations the
program performs.  Atomic input geometries are represented by their kind
(point, linestring, polygon) and an opaque identifier; `empty` is the empty
geometry that `shapely.ops.unary_union` returns for an empty input list. -/
inductive Geom where
  | point (id : String)
  | linestring (id : String)
  | polygon (id : String)
  | empty
  | buffer (g : Geom) (distance : ℚ) (cap : CapStyle) (join : JoinStyle)
  | union2 (a b : Geom)
  | difference (a b : Geom)
deriving DecidableEq

/-- `shapely.ops.unary_union` on a list of geometries, modelled as a fold of
binary unions; the union of the empty list is the empty geometry, matching
shapely returning `GEOMETRYCOLLECTION EMPTY`. -/
def unary_union (gs : List Geom) : Geom :=
  gs.foldr Geom.union2 Geom.empty

/-- Python dict lookup (`d.get(k)` / `d[k]`) on an association list. -/
def dictGet {V : Type} (k : String) : List (String × V) → Option V
  | [] => none
  | (k2, v) :: rest => if k = k2 then some v else dictGet k rest

/-- Python `k in d` on an association list. -/
def dictContains {V : Type} (k : String) (d : List (String × V)) : Bool :=
  (dictGet k d).isSome

/-- Modelled from the spec: `osm_public_space_mapper.utils.osm_element.OsmElement`
is not under src/.  Per spec section 3 and 6, an element carries a geometry, a
mapping of free-form tag keys to string values, a mutable numeric width
attribute (undefined until computed) and a mutable space_type label (or unset).
Tags are modelled as a function from keys to optional values, matching Python
`dict.get` returning `None` for absent keys.  The fields this core never reads
(identifier, access) are omitted. -/
structure OsmElement where
  tags : String → Option String
  geom : Geom
  width : Option ℚ := none
  space_type : Option String := none

/-- Modelled from the spec: `OsmElement.has_tag` (utils not under src/), the
tag-presence lookup used throughout the analysis code. -/
def OsmElement.has_tag (e : OsmElement) (k : String) : Bool :=
  (e.tags k).isSome

/-- Modelled from the spec: `OsmElement.is_linestring` (utils not under src/),
true exactly when the element geometry is a linestring (spec 4.3: "only if the
geometry is a line").  Derived geometries produced by buffering are polygons,
never linestrings. -/
def OsmElement.is_linestring (e : OsmElement) : Bool :=
  match e.geom with
  | Geom.linestring _ => true
  | _ => false

/-- Helper for building concrete tag dictionaries in examples. -/
def tagsOf (l : List (String × String)) : String → Option String :=
  fun k => dictGet k l

/-- Adding (or overwriting) one key in a tag mapping. -/
def addTag (t : String → Option String) (k : String) (v : String) :
    String → Option String :=
  fun k2 => if k2 = k then some v else t k2

/-- Python `float(s)` on a tag value, modelled for plain decimal literals:
an optional sign, digits, optionally a decimal point and digits.  (Python also
accepts exponents, infinities and surrounding whitespace; no tag value in the
claims uses those forms.)  Returns `none` where `float` raises `ValueError`. -/
def pyFloat (s : String) : Option ℚ :=
  let cs := s.toList
  let signAndRest : ℚ × List Char :=
    match cs with
    | '-' :: r => (-1, r)
    | '+' :: r => (1, r)
    | _ => (1, cs)
  let sign := signAndRest.1
  let body := signAndRest.2
  let intPart := body.takeWhile (fun c => c ≠ '.')
  let rest := body.dropWhile (fun c => c ≠ '.')
  let natVal : List Char → ℕ :=
    fun ds => ds.foldl (fun a c => 10 * a + (c.toNat - 48)) 0
  match rest with
  | [] =>
      if intPart ≠ [] ∧ intPart.all Char.isDigit then
        some (sign * (natVal intPart : ℚ))
      else none
  | _ :: fracPart =>
      if (intPart ≠ [] ∨ fracPart ≠ []) ∧ intPart.all Char.isDigit ∧
          fracPart.all Char.isDigit then
        some (sign * ((natVal intPart : ℚ) +
          (natVal fracPart : ℚ) / (10 : ℚ) ^ fracPart.length))
      else none

/-- Python `float(s)` with the `ValueError` made explicit. -/
def pyFloatE (s : String) : Except String ℚ :=
  match pyFloat s with
  | some v => Except.ok v
  | none => Except.error ("ValueError: could not convert string to float: " ++ s)

/-- Python `round(x, 1)` on an exact decimal: round 10*x to the nearest
integer, ties to even (Python banker rounding), then divide by 10. -/
def pyRound1 (q : ℚ) : ℚ :=
  let t : ℚ := 10 * q
  let n : ℤ :=
    if Int.fract t = 1 / 2 then
      (if ⌊t⌋ % 2 = 0 then ⌊t⌋ else ⌊t⌋ + 1)
    else round t
  (n : ℚ) / 10

/-- Highway type to (bi-directional width, uni-directional width) table. -/
abbrev HighwayDefaultWidths := List (String × (ℚ × ℚ))

/-- Cycleway tag to construction type to width table. -/
abbrev CyclewayDefaultWidths := List (String × List (String × ℚ))

/-- The default highway width table from `set_defaults`
(analyse_traffic_area.py lines 63-86): each entry is
(bi-directional width, uni-directional width). -/
def default_highway_widths : HighwayDefaultWidths :=
  [("footway", (1.8, 1)),
   ("service", (4.5, 3)),
   ("residential", (4.5, 3)),
   ("steps", (2, 1.5)),
   ("tertiary", (4.8, 3.1)),
   ("primary", (5.5, 3.1)),
   ("cycleway", (2, 1.5)),
   ("secondary", (4.8, 3.1)),
   ("path", (1.5, 1)),
   ("motorway_link", (6.5, 3.23)),
   ("platform", (2, 1.5)),
   ("pedestrian", (2, 2)),
   ("motorway", (6.5, 3.25)),
   ("living_street", (4.5, 3)),
   ("unclassified", (4.5, 3)),
   ("primary_link", (5.5, 3.1)),
   ("track", (3, 2.5)),
   ("corridor", (2, 1)),
   ("proposed", (4.8, 3.1)),
   ("secondary_link", (4.8, 3.1)),
   ("construction", (5.5, 3.1)),
   ("everything else", (4.8, 3.1))]

/-- The default cycleway width table from `set_defaults`
(analyse_traffic_area.py lines 87-109), with
cycletrack_width = cyclelane_width = 1.6. -/
def default_cycleway_widths : CyclewayDefaultWidths :=
  [("cycleway",
    [("lane", 1.6), ("opposite", 1), ("track", 1.6),
     ("opposite_lane", 1.6), ("opposite_track", 1.6)]),
   ("cycleway:right", [("lane", 1.6), ("track", 1.6)]),
   ("cycleway:both", [("lane", 3.2), ("track", 3.2)]),
   ("cycleway:left", [("lane", 1.6), ("track", 1.6)])]

/-- `set_defaults` (analyse_traffic_area.py lines 62-110): replace `None`
table arguments by the defaults. -/
def set_defaults (hdw : Option HighwayDefaultWidths)
    (cdw : Option CyclewayDefaultWidths) :
    HighwayDefaultWidths × CyclewayDefaultWidths :=
  (hdw.getD default_highway_widths, cdw.getD default_cycleway_widths)

/-- Modelled from the spec: `example_application.local_variables` is not under
src/.  Spec 4.1 gives the default set of highway types assumed to carry
curbside parking. -/
def highway_types_for_default_streetside_parking : List String :=
  ["residential", "tertiary", "living_street", "secondary", "primary"]

/-- Modelled from the spec: `example_application.local_variables` is not under
src/.  Spec 4.1 and the add_parking docstring give the default parking width. -/
def default_parking_width : ℚ := 6.5

/-- `is_crossing` (analyse_traffic_area.py lines 12-19): an element is a
crossing if it has a `crossing` tag, or its `footway` or `highway` tag value
equals "crossing". -/
def is_crossing (element : OsmElement) : Bool :=
  element.has_tag "crossing" ||
    element.tags "footway" == some "crossing" ||
    element.tags "highway" == some "crossing"

/-- `is_pedestrian_way` (analyse_traffic_area.py lines 22-24). -/
def is_pedestrian_way (element : OsmElement) : Bool :=
  (match element.tags "highway" with
   | some h =>
       ["footway", "steps", "path", "platform", "pedestrian",
        "living_street", "track"].contains h
   | none => false) &&
  !(element.tags "footway" == some "crossing")

/-- `is_irrelevant_highway` (analyse_traffic_area.py lines 183-185). -/
def is_irrelevant_highway (element : OsmElement) : Bool :=
  match element.tags "highway" with
  | some h => ["corridor", "proposed"].contains h
  | none => false

/-- `set_default_highway_width` (analyse_traffic_area.py lines 127-133):
look up the highway type in the width table, falling back to the
"everything else" entry; pick the uni- or bi-directional component.  A
caller-supplied table lacking "everything else" raises KeyError in Python,
modelled as the error case. -/
def set_default_highway_width (element : OsmElement) (direction : String)
    (hdw : HighwayDefaultWidths) : Except String ℚ :=
  let pick : ℚ × ℚ → ℚ :=
    fun p => if direction = "uni-directional" then p.2 else p.1
  match element.tags "highway" with
  | some h =>
      match dictGet h hdw with
      | some p => Except.ok (pick p)
      | none =>
          match dictGet "everything else" hdw with
          | some p => Except.ok (pick p)
          | none => Except.error "KeyError: everything else"
  | none =>
      match dictGet "everything else" hdw with
      | some p => Except.ok (pick p)
      | none => Except.error "KeyError: everything else"

/-- `adapt_to_lanes` (analyse_traffic_area.py lines 135-139): scale the width
by lanes / assumed-lane-count when a `lanes` tag is present and differs from
the assumed count (1 uni-directional, 2 bi-directional).  `float` on a
malformed `lanes` value raises, modelled as the error case. -/
def adapt_to_lanes (element : OsmElement) (width : ℚ) (direction : String) :
    Except String ℚ :=
  let normal_lane_number : ℚ := if direction = "uni-directional" then 1 else 2
  match element.tags "lanes" with
  | none => Except.ok width
  | some s =>
      match pyFloat s with
      | none =>
          Except.error ("ValueError: could not convert string to float: " ++ s)
      | some lanes =>
          if lanes ≠ normal_lane_number then
            Except.ok (width * lanes / normal_lane_number)
          else Except.ok width

/-- `add_cycleway` (analyse_traffic_area.py lines 141-147): unless the element
is itself a cycleway, add the configured width for every cycleway-related tag
whose value is a known construction type. -/
def add_cycleway (element : OsmElement) (width : ℚ)
    (cdw : CyclewayDefaultWidths) : ℚ :=
  let own_highway_is_cycleway : Bool :=
    match element.tags "highway" with
    | some h => dictContains h cdw
    | none => false
  if own_highway_is_cycleway then width
  else
    cdw.foldl
      (fun w kv =>
        match element.tags kv.1 with
        | some v =>
            match dictGet v kv.2 with
            | some cw => w + cw
            | none => w
        | none => w)
      width

/-- `add_parking` (analyse_traffic_area.py lines 149-167): add a flat parking
allowance when the highway type is in the configured list. -/
def add_parking (element : OsmElement) (width : ℚ)
    (parking_types : List String) (parking_width : ℚ) : ℚ :=
  match element.tags "highway" with
  | some h => if parking_types.contains h then width + parking_width else width
  | none => width

/-- `estimate_road_width` (analyse_traffic_area.py lines 114-174): determine
directionality from the presence of a `oneway` tag, take the table base width,
scale by lanes, add cycleway and parking contributions. -/
def estimate_road_width (element : OsmElement) (hdw : HighwayDefaultWidths)
    (cdw : CyclewayDefaultWidths) : Except String ℚ :=
  let direction : String :=
    if element.has_tag "oneway" then "uni-directional" else "bi-directional"
  match set_default_highway_width element direction hdw with
  | Except.error m => Except.error m
  | Except.ok width =>
      match adapt_to_lanes element width direction with
      | Except.error m => Except.error m
      | Except.ok width =>
          let width := add_cycleway element width cdw
          let width := add_parking element width
            highway_types_for_default_streetside_parking default_parking_width
          Except.ok width

/-- `set_road_width` (analyse_traffic_area.py lines 53-181): width from the
`width:carriageway` tag if present, else from the `width` tag, else estimated.
(The source reads the tag values through the enclosing loop variable `e`,
which is always the same object as `element` at the call site.)  Returns the
element with its width attribute set; `float` on a malformed consulted tag
raises, modelled as the error case. -/
def set_road_width (element : OsmElement)
    (hdw : Option HighwayDefaultWidths) (cdw : Option CyclewayDefaultWidths) :
    Except String OsmElement :=
  let tables := set_defaults hdw cdw
  match element.tags "width:carriageway" with
  | some s => (pyFloatE s).map (fun v => { element with width := some v })
  | none =>
      match element.tags "width" with
      | some s => (pyFloatE s).map (fun v => { element with width := some v })
      | none =>
          (estimate_road_width element tables.1 tables.2).map
            (fun v => { element with width := some v })

/-- `buffer_osm_element` (analyse_traffic_area.py lines 38-42): deep-copy the
element and replace the copy's geometry by the line buffered with radius
`round(width / 2, 1)` and flat caps (shapely default round joins).  The copy
is modelled by returning a new value; the width read of an element whose
width was never set would raise in Python and cannot occur at the call sites,
`getD 0` is an arbitrary stand-in for that impossible case. -/
def buffer_osm_element (element : OsmElement) : OsmElement :=
  let buffer_size := pyRound1 (element.width.getD 0 / 2)
  { element with
      geom := Geom.buffer element.geom buffer_size CapStyle.flat JoinStyle.round }

/-- The body of the per-element loop of `polygonize_highways`
(analyse_traffic_area.py lines 187-198), on one element: returns the updated
element and the candidate polygon appended for it, if any.  Elements without a
highway tag are skipped by the loop filter.  Note the source buffers before
assigning space_type, so the polygon copy carries the pre-assignment
space_type. -/
def highwayStep (hdw : Option HighwayDefaultWidths)
    (cdw : Option CyclewayDefaultWidths) (e : OsmElement) :
    Except String (OsmElement × Option OsmElement) :=
  if e.has_tag "highway" then
    if is_pedestrian_way e then
      if !is_crossing e then
        Except.ok ({ e with space_type := some "walking area" }, none)
      else Except.ok (e, none)
    else if is_irrelevant_highway e then
      Except.ok ({ e with space_type := some "traffic area" }, none)
    else
      if e.is_linestring then
        match set_road_width e hdw cdw with
        | Except.error m => Except.error m
        | Except.ok e2 =>
            Except.ok ({ e2 with space_type := some "traffic area" },
              some (buffer_osm_element e2))
      else Except.ok ({ e with space_type := some "traffic area" }, none)
  else Except.ok (e, none)

/-- `polygonize_highways` (analyse_traffic_area.py lines 44-199) over the
element list: the updated elements (in-place Python mutation modelled by
returning the list) and the accumulated highway candidate polygons. -/
def polygonize_highways (hdw : Option HighwayDefaultWidths)
    (cdw : Option CyclewayDefaultWidths) :
    List OsmElement → Except String (List OsmElement × List OsmElement)
  | [] => Except.ok ([], [])
  | e :: rest =>
      match highwayStep hdw cdw e with
      | Except.error m => Except.error m
      | Except.ok (e2, p) =>
          match polygonize_highways hdw cdw rest with
          | Except.error m => Except.error m
          | Except.ok (rest2, ps) => Except.ok (e2 :: rest2, p.toList ++ ps)

/-- The body of the per-element loop of `polygonize_railways`
(analyse_traffic_area.py lines 214-224), on one element: tram and rail lines
get a gauge-based width and a buffered candidate polygon, every railway
except platforms is classified traffic area.  Elements that are not
linestrings or have no railway tag are skipped by the loop filter. -/
def railwayStep (tram_gauge tram_buffer train_gauge train_buffer : ℚ)
    (e : OsmElement) : OsmElement × Option OsmElement :=
  if e.is_linestring && e.has_tag "railway" then
    let e1 :=
      if e.tags "railway" == some "tram" then
        { e with width := some (tram_gauge + tram_buffer) }
      else if e.tags "railway" == some "rail" then
        { e with width := some (train_gauge + train_buffer) }
      else e
    let p :=
      if e1.tags "railway" == some "tram" || e1.tags "railway" == some "rail"
      then some (buffer_osm_element e1)
      else none
    let e2 :=
      if !(e1.tags "railway" == some "platform") then
        { e1 with space_type := some "traffic area" }
      else e1
    (e2, p)
  else (e, none)

/-- `polygonize_railways` (analyse_traffic_area.py lines 201-224) over the
element list. -/
def polygonize_railways (tram_gauge tram_buffer train_gauge train_buffer : ℚ) :
    List OsmElement → List OsmElement × List OsmElement
  | [] => ([], [])
  | e :: rest =>
      let (e2, p) := railwayStep tram_gauge tram_buffer train_gauge train_buffer e
      let (rest2, ps) :=
        polygonize_railways tram_gauge tram_buffer train_gauge train_buffer rest
      (e2 :: rest2, p.toList ++ ps)

/-- `get_traffic_areas` (analyse_traffic_area.py lines 226-227): highway
candidates followed by railway candidates, with the element list threaded
through both passes (Python mutates the shared list in place). -/
def get_traffic_areas (elements : List OsmElement)
    (hdw : Option HighwayDefaultWidths) (cdw : Option CyclewayDefaultWidths)
    (tram_gauge tram_buffer train_gauge train_buffer : ℚ) :
    Except String (List OsmElement × List OsmElement) :=
  match polygonize_highways hdw cdw elements with
  | Except.error m => Except.error m
  | Except.ok (es1, hp) =>
      let (es2, rp) :=
        polygonize_railways tram_gauge tram_buffer train_gauge train_buffer es1
      Except.ok (es2, hp ++ rp)

/-- Modelled from the spec:
`osm_public_space_mapper.utils.helpers.buffer_list_of_elements` is not under
src/.  Per spec 4.4 each element of the list is buffered with the given size
and styles, producing new elements (copies) with buffered geometry. -/
def buffer_list_of_elements (elements : List OsmElement) (buffer_size : ℚ)
    (cap : CapStyle) (join : JoinStyle) : List OsmElement :=
  elements.map (fun e =>
    { e with geom := Geom.buffer e.geom buffer_size cap join })

/-- `get_cropper_geometries` (analyse_traffic_area.py lines 229-244):
pedestrian ways buffered with half the default pedestrian-way width and flat
caps, buildings buffered with the building clearance and mitred joins,
platform geometries as-is, and the inaccessible enclosed areas. -/
def get_cropper_geometries (elements : List OsmElement)
    (inaccessible_enclosed_areas : List Geom) (buildings : List OsmElement)
    (pedestrian_way_default_width : ℚ)
    (non_traffic_space_around_buildings_default_width : ℚ) : List Geom :=
  let pedestrian_ways_buffered :=
    buffer_list_of_elements (elements.filter is_pedestrian_way)
      (pedestrian_way_default_width / 2) CapStyle.flat JoinStyle.round
  let buildings_buffered :=
    buffer_list_of_elements buildings
      non_traffic_space_around_buildings_default_width
      CapStyle.round JoinStyle.mitre
  let platforms :=
    elements.filter (fun e => e.tags "railway" == some "platform")
  pedestrian_ways_buffered.map (fun e => e.geom) ++
    buildings_buffered.map (fun e => e.geom) ++
    platforms.map (fun e => e.geom) ++
    inaccessible_enclosed_areas

/-- `smooth_traffic_areas` (analyse_traffic_area.py lines 265-267): buffer by
+1 and -1 with mitred joins, then +0.5 and -0.5 with round joins. -/
def smooth_traffic_areas (traffic_areas_cropped : Geom) : Geom :=
  Geom.buffer
    (Geom.buffer
      (Geom.buffer
        (Geom.buffer traffic_areas_cropped 1 CapStyle.round JoinStyle.mitre)
        (-1) CapStyle.round JoinStyle.mitre)
      (1 / 2) CapStyle.round JoinStyle.round)
    (-(1 / 2)) CapStyle.round JoinStyle.round

/-- `get_traffic_areas_as_polygons` (analyse_traffic_area.py lines 27-274).
Python defaults: tables None, tram_gauge 1.435, tram_buffer 0.5, train_gauge
1.435, train_buffer 1.5, pedestrian_way_default_width 1.6,
non_traffic_space_around_buildings_default_width 1.3.  Returns the final
element list (the in-place mutations) together with the single smoothed
traffic-area geometry the Python function returns. -/
def get_traffic_areas_as_polygons (elements : List OsmElement)
    (inaccessible_enclosed_areas : List Geom) (buildings : List OsmElement)
    (hdw : Option HighwayDefaultWidths) (cdw : Option CyclewayDefaultWidths)
    (tram_gauge tram_buffer train_gauge train_buffer : ℚ)
    (pedestrian_way_default_width : ℚ)
    (non_traffic_space_around_buildings_default_width : ℚ) :
    Except String (List OsmElement × Geom) :=
  match get_traffic_areas elements hdw cdw
      tram_gauge tram_buffer train_gauge train_buffer with
  | Except.error m => Except.error m
  | Except.ok (es2, traffic_areas) =>
      let cropper_geometries := get_cropper_geometries es2
        inaccessible_enclosed_areas buildings pedestrian_way_default_width
        non_traffic_space_around_buildings_default_width
      let cropper_geometries_union :=
        Geom.buffer (Geom.buffer (unary_union cropper_geometries)
          (3 / 10) CapStyle.round JoinStyle.round)
          (-(3 / 10)) CapStyle.round JoinStyle.round
      let traffic_areas_union :=
        unary_union (traffic_areas.map (fun e => e.geom))
      let traffic_areas_cropped :=
        Geom.difference traffic_areas_union cropper_geometries_union
      Except.ok (es2, smooth_traffic_areas traffic_areas_cropped)

/-- The Set-Operation and Smoothing Stage written from the spec's words
(spec 4.5): union the candidate polygons; union the cropper geometries and
expand-then-contract them by the 0.3 tolerance; subtract; then smooth by
mitred buffers of +1 then -1 and round buffers of +0.5 then -0.5.  Used to
compare the code's
pipeline against the specified one. -/
def spec_set_operation_smoothing (candidates croppers : List Geom) : Geom :=
  let cropper_union :=
    Geom.buffer (Geom.buffer (unary_union croppers)
      (3 / 10) CapStyle.round JoinStyle.round)
      (-(3 / 10)) CapStyle.round JoinStyle.round
  let diff := Geom.difference (unary_union candidates) cropper_union
  Geom.buffer
    (Geom.buffer
      (Geom.buffer (Geom.buffer diff 1 CapStyle.round JoinStyle.mitre)
        (-1) CapStyle.round JoinStyle.mitre)
      (1 / 2) CapStyle.round JoinStyle.round)
    (-(1 / 2)) CapStyle.round JoinStyle.round

/-!  The Undefined Space Resolver (get_undefined_space.py).  -/

/-- The Python runtime class of an object stored in a defined-space list:
either exactly the class `OsmElement`, or a proper subclass of it named by a
string.  `type(e) == OsmElement` is true only for the first. -/
inductive PyClass where
  | osmElement
  | sub (name : String)
deriving DecidableEq

/-- A Python value held in a defined-space list: a plain shapely geometry, or
an `OsmElement`-classed object (exact class or subclass) with its payload. -/
inductive PyVal where
  | geomV (g : Geom)
  | elemV (cls : PyClass) (e : OsmElement)

/-- Whether a list item is a plain geometry. -/
def PyVal.isGeom : PyVal → Bool
  | PyVal.geomV _ => true
  | PyVal.elemV _ _ => false

/-- The body of the collection loop of `load` (get_undefined_space.py lines
27-31): `if type(e) == OsmElement: append(e.geom) else: append(e)` — extract
the stored geometry exactly when the runtime class is `OsmElement`, otherwise
append the item itself unchanged. -/
def collect_defined_space_item : PyVal → PyVal
  | PyVal.elemV cls e =>
      if cls = PyClass.osmElement then PyVal.geomV e.geom
      else PyVal.elemV cls e
  | PyVal.geomV g => PyVal.geomV g

/-- The nested loops of `load` (get_undefined_space.py lines 25-31): iterate
the dict values in order and each list in order, collecting the processed
items. -/
def collect_defined_space_geometries
    (all_defined_space_lists : List (String × List PyVal)) : List PyVal :=
  (all_defined_space_lists.flatMap (fun kv => kv.2)).map
    collect_defined_space_item

/-- Coerce a collected item to the geometry `shapely.ops.unary_union`
consumes; a non-geometry item (an object whose class is a proper subclass of
`OsmElement`, left unextracted by the loop) makes the union raise in Python,
modelled as `none`. -/
def asGeom : PyVal → Option Geom
  | PyVal.geomV g => some g
  | PyVal.elemV _ _ => none

/-- All collected items as geometries, or `none` on the first non-geometry
(the union raises a TypeError there). -/
def extract_geoms : List PyVal → Option (List Geom)
  | [] => some []
  | v :: rest =>
      match asGeom v with
      | some g => (extract_geoms rest).map (fun gs => g :: gs)
      | none => none

/-- Modelled from the spec: `osm_public_space_mapper.utils.bounding_box` is
not under src/.  Per spec section 3 a bounding region is a rectangular extent
whose projected geometry (`geom_projected`) is the universe for the
undefined-space computation. -/
structure BoundingBox where
  geom_projected : Geom

/-- `load` (get_undefined_space.py lines 15-34): union every collected
defined-space geometry and subtract the union from the bounding region's
projected geometry. -/
def load (all_defined_space_lists : List (String × List PyVal))
    (bbox : BoundingBox) : Except String Geom :=
  let defined_space_geometries :=
    collect_defined_space_geometries all_defined_space_lists
  match extract_geoms defined_space_geometries with
  | some gs =>
      Except.ok (Geom.difference bbox.geom_projected (unary_union gs))
  | none =>
      Except.error "TypeError: unary_union argument is not a geometry"

/-- An interpretation of the primitive geometric operations: a point set for
every atomic geometry and a set transformer for buffering.  Union, difference
and the empty geometry always denote set union, set difference and the empty
set. -/
structure Interp where
  pointSet : String → Set (ℚ × ℚ)
  lineSet : String → Set (ℚ × ℚ)
  polySet : String → Set (ℚ × ℚ)
  bufferSet : Set (ℚ × ℚ) → ℚ → CapStyle → JoinStyle → Set (ℚ × ℚ)

/-- Denotation of a geometry as a point set, relative to an interpretation of
the atoms and of buffering. -/
def den (I : Interp) : Geom → Set (ℚ × ℚ)
  | Geom.point id => I.pointSet id
  | Geom.linestring id => I.lineSet id
  | Geom.polygon id => I.polySet id
  | Geom.empty => ∅
  | Geom.buffer g d c j => I.bufferSet (den I g) d c j
  | Geom.union2 a b => den I a ∪ den I b
  | Geom.difference a b => den I a \ den I b

/-!  Concrete elements used in counterexamples and witnesses.  -/

/-- A residential road linestring with no width, lanes or cycleway tags. -/
def exResidential : OsmElement :=
  { tags := tagsOf [("highway", "residential")]
    geom := Geom.linestring "r1" }

/-- A rail platform mapped as a linestring. -/
def exPlatform : OsmElement :=
  { tags := tagsOf [("railway", "platform")]
    geom := Geom.linestring "p1" }

/-- A footway that is a crossing by virtue of a `crossing` tag. -/
def exCrossing : OsmElement :=
  { tags := tagsOf [("highway", "footway"), ("crossing", "zebra")]
    geom := Geom.linestring "c1" }

/-- A pedestrian street: the default width pair for `pedestrian` is (2, 2). -/
def exPedestrianOneway : OsmElement :=
  { tags := tagsOf [("highway", "pedestrian"), ("oneway", "yes")]
    geom := Geom.linestring "pd1" }

/-- The same pedestrian street without the `oneway` tag. -/
def exPedestrianTwoway : OsmElement :=
  { tags := tagsOf [("highway", "pedestrian")]
    geom := Geom.linestring "pd1" }

/-- A tram line whose resolved width is 1.935 (gauge 1.435 + buffer 0.5). -/
def exTram : OsmElement :=
  { tags := tagsOf [("railway", "tram")]
    geom := Geom.linestring "t1"
    width := some 1.935 }

/-- A road with a parseable `width` tag and a malformed `lanes` tag. -/
def exGoodWidthBadLanes : OsmElement :=
  { tags := tagsOf [("highway", "residential"), ("width", "5"),
      ("lanes", "abc")]
    geom := Geom.linestring "w1" }

/-- A road with a malformed `width:carriageway` tag. -/
def exBadCarriageway : OsmElement :=
  { tags := tagsOf [("highway", "residential"), ("width:carriageway", "abc")]
    geom := Geom.linestring "w2" }

/-- A road with both carriageway and plain width tags. -/
def exBothWidths : OsmElement :=
  { tags := tagsOf [("highway", "residential"), ("width:carriageway", "2.5"),
      ("width", "7")]
    geom := Geom.linestring "w3" }

/-- A road with only a plain width tag. -/
def exPlainWidth : OsmElement :=
  { tags := tagsOf [("highway", "residential"), ("width", "7")]
    geom := Geom.linestring "w4" }

/-!  Helper lemmas.  -/

theorem Geom.buffer_ne : ∀ (g : Geom) (d : ℚ) (c : CapStyle) (j : JoinStyle),
    Geom.buffer g d c j ≠ g := by
  intro g
  induction g with
  | point id => intro d c j h; exact Geom.noConfusion h
  | linestring id => intro d c j h; exact Geom.noConfusion h
  | polygon id => intro d c j h; exact Geom.noConfusion h
  | empty => intro d c j h; exact Geom.noConfusion h
  | buffer g0 d0 c0 j0 ih =>
      intro d c j h
      injection h with h1 h2 h3 h4
      exact ih d0 c0 j0 h1
  | union2 a b iha ihb => intro d c j h; exact Geom.noConfusion h
  | difference a b iha ihb => intro d c j h; exact Geom.noConfusion h

theorem extract_geoms_of_all_geom : ∀ l : List PyVal,
    (∀ v ∈ l, v.isGeom = true) → ∃ gs, extract_geoms l = some gs := by
  intro l
  induction l with
  | nil => intro _; exact ⟨[], rfl⟩
  | cons v rest ih =>
      intro h
      have hv : v.isGeom = true := h v (List.mem_cons_self v rest)
      obtain ⟨gs, hgs⟩ := ih (fun x hx => h x (List.mem_cons_of_mem v hx))
      cases v with
      | geomV g =>
          exact ⟨g :: gs, by simp [extract_geoms, asGeom, hgs]⟩
      | elemV cls e => simp [PyVal.isGeom] at hv

theorem flatMap_nil_of_all_empty : ∀ l : List (String × List PyVal),
    l.all (fun kv => kv.2.isEmpty) = true → l.flatMap (fun kv => kv.2) = [] := by
  intro l
  induction l with
  | nil => intro _; rfl
  | cons kv rest ih =>
      intro h
      simp only [List.all_cons, Bool.and_eq_true] at h
      have h1 : kv.2 = [] := List.isEmpty_iff.mp h.1
      simp [List.flatMap_cons, h1, ih h.2]

/-!  Claim theorems.  -/

/-- C10: in the Undefined Space Resolver's collection loop, the stored
geometry of an item is extracted only when the item's runtime class is
exactly `OsmElement`; any other item, in particular an instance of a proper
subclass of `OsmElement`, is appended to the union input unchanged, as if it
were already a plain geometry. -/
theorem claim10_exact_type_extraction :
    ∀ (cls : PyClass) (el : OsmElement) (g : Geom),
      (cls = PyClass.osmElement →
        collect_defined_space_item (PyVal.elemV cls el) = PyVal.geomV el.geom) ∧
      (cls ≠ PyClass.osmElement →
        collect_defined_space_item (PyVal.elemV cls el) = PyVal.elemV cls el) ∧
      collect_defined_space_item (PyVal.geomV g) = PyVal.geomV g := by
  intro cls el g
  refine ⟨fun h => ?_, fun h => ?_, rfl⟩
  · simp [collect_defined_space_item, h]
  · simp [collect_defined_space_item, h]

/-- Witness for C10: a subclass-classed element with a stored geometry is
passed through unchanged, while an exactly-`OsmElement`-classed one has its
geometry extracted. -/
theorem claim10_witness :
    collect_defined_space_item
        (PyVal.elemV (PyClass.sub "MyElement") exResidential) =
      PyVal.elemV (PyClass.sub "MyElement") exResidential ∧
    collect_defined_space_item (PyVal.elemV PyClass.osmElement exResidential) =
      PyVal.geomV exResidential.geom := by
  exact ⟨(claim10_exact_type_extraction (PyClass.sub "MyElement") exResidential
      Geom.empty).2.1 (by simp),
    (claim10_exact_type_extraction PyClass.osmElement exResidential
      Geom.empty).1 rfl⟩

/-- C8: `load` always returns a geometry (never a null result) whenever the
collected items are all geometries, and on a mapping whose lists are all
empty the returned undefined space denotes exactly the bounding region's full
projected geometry, under every interpretation of the atomic geometries. -/
theorem claim8_load_total_and_empty :
    ∀ (lists : List (String × List PyVal)) (bbox : BoundingBox),
      ((∀ v ∈ collect_defined_space_geometries lists, v.isGeom = true) →
        ∃ g, load lists bbox = Except.ok g) ∧
      (lists.all (fun kv => kv.2.isEmpty) = true →
        load lists bbox =
          Except.ok (Geom.difference bbox.geom_projected (unary_union [])) ∧
        ∀ I : Interp,
          den I (Geom.difference bbox.geom_projected (unary_union [])) =
            den I bbox.geom_projected) := by
  intro lists bbox
  constructor
  · intro h
    obtain ⟨gs, hgs⟩ := extract_geoms_of_all_geom _ h
    exact ⟨Geom.difference bbox.geom_projected (unary_union gs),
      by simp [load, hgs]⟩
  · intro h
    have hflat : lists.flatMap (fun kv => kv.2) = [] :=
      flatMap_nil_of_all_empty lists h
    constructor
    · simp [load, collect_defined_space_geometries, hflat, extract_geoms]
    · intro I
      simp [den, unary_union]

/-- Witness for C8: a mapping of two empty lists and a concrete bounding
region — the collected items are (vacuously) all geometries, `load` returns a
geometry, and the undefined space denotes the whole bounding region. -/
theorem claim8_witness :
    ((([("buildings", []), ("traffic", [])] :
        List (String × List PyVal)).all (fun kv => kv.2.isEmpty)) = true) ∧
    load [("buildings", []), ("traffic", [])] ⟨Geom.polygon "bb"⟩ =
      Except.ok (Geom.difference (Geom.polygon "bb") (unary_union [])) ∧
    ∀ I : Interp,
      den I (Geom.difference (Geom.polygon "bb") (unary_union [])) =
        den I (Geom.polygon "bb") := by
  refine ⟨rfl, ?_⟩
  exact (claim8_load_total_and_empty [("buildings", []), ("traffic", [])]
    ⟨Geom.polygon "bb"⟩).2 rfl

/-- Counterexample for C5: the code rounds the buffer radius to one decimal
place, so an element of width 1.935 (a tram) is buffered with radius 1.0 and
not with radius exactly w/2 = 0.9675 = 387/400 as the claim states. -/
theorem claim5_counterexample :
    (buffer_osm_element exTram).geom =
      Geom.buffer (Geom.linestring "t1") 1 CapStyle.flat JoinStyle.round ∧
    Geom.buffer (Geom.linestring "t1") 1 CapStyle.flat JoinStyle.round ≠
      Geom.buffer (Geom.linestring "t1") (387 / 400) CapStyle.flat
        JoinStyle.round ∧
    (387 / 400 : ℚ) = 1.935 / 2 := by
  refine ⟨by with_unfolding_all rfl, ?_, by norm_num⟩
  intro h
  injection h with h1 h2 h3 h4
  exact absurd h2 (by norm_num)

/-- C5 as amended: for every element with a resolved width w, buffering
produces the line buffered with radius `round(w/2, 1)` — w/2 rounded to one
decimal place — and flat end caps; in particular a tram of width 1.935 is
buffered with radius 1.0. -/
theorem claim5_amended :
    (∀ (e : OsmElement) (w : ℚ), e.width = some w →
      (buffer_osm_element e).geom =
        Geom.buffer e.geom (pyRound1 (w / 2)) CapStyle.flat JoinStyle.round) ∧
    pyRound1 (1.935 / 2) = 1 := by
  constructor
  · intro e w h
    simp [buffer_osm_element, h]
  · with_unfolding_all rfl

/-- Witness for C5 (amended): the tram element, width 1.935. -/
theorem claim5_witness :
    exTram.width = some 1.935 ∧
    (buffer_osm_element exTram).geom =
      Geom.buffer exTram.geom (pyRound1 (1.935 / 2)) CapStyle.flat
        JoinStyle.round :=
  ⟨rfl, claim5_amended.1 exTram 1.935 rfl⟩

/-- C6: buffering returns a new copy: the returned element keeps the input's
tags, width and space_type, its geometry is a freshly built buffer node over
the input's geometry (so the input's own geometry value is untouched and is
not the returned polygon), and that polygon is distinct from the input
geometry. -/
theorem claim6_buffer_returns_copy :
    ∀ e : OsmElement,
      (buffer_osm_element e).tags = e.tags ∧
      (buffer_osm_element e).width = e.width ∧
      (buffer_osm_element e).space_type = e.space_type ∧
      (buffer_osm_element e).geom =
        Geom.buffer e.geom (pyRound1 (e.width.getD 0 / 2)) CapStyle.flat
          JoinStyle.round ∧
      (buffer_osm_element e).geom ≠ e.geom := by
  intro e
  refine ⟨rfl, rfl, rfl, rfl, ?_⟩
  exact Geom.buffer_ne e.geom (pyRound1 (e.width.getD 0 / 2)) CapStyle.flat
    JoinStyle.round

/-- C2 is a code bug: a pedestrian way that is a crossing only by virtue of a
`crossing` tag (here highway=footway with crossing=zebra) satisfies both
`is_pedestrian_way` and `is_crossing`, and the Polygonizer then takes the
branch that assigns nothing: its space_type stays unset instead of becoming
"traffic area" as the spec requires. -/
theorem claim2_crossing_left_unclassified :
    is_pedestrian_way exCrossing = true ∧
    is_crossing exCrossing = true ∧
    (highwayStep none none exCrossing).map (fun p => p.1.space_type) =
      Except.ok none := by
  refine ⟨rfl, rfl, rfl⟩

/-- Counterexample for C1: a rail platform mapped as a linestring carries a
railway tag, yet after `get_traffic_areas_as_polygons` returns its space_type
is still unset (the railway pass deliberately skips platforms). -/
theorem claim1_counterexample :
    exPlatform.has_tag "railway" = true ∧
    (get_traffic_areas_as_polygons [exPlatform] [] [] none none
        1.435 0.5 1.435 1.5 1.6 1.3).map
      (fun p => p.1.map (fun e => e.space_type)) = Except.ok [none] := by
  exact ⟨rfl, rfl⟩

/-- C3: whenever width resolution finds a parseable `width:carriageway` tag,
the element's width is set to exactly the parsed value; failing that, a
parseable `width` tag is used exactly.  Both conclusions hold for every
width-table configuration, so the rule-table estimation is not applied. -/
theorem claim3_declared_width_exact :
    (∀ (e : OsmElement) (hdw : Option HighwayDefaultWidths)
        (cdw : Option CyclewayDefaultWidths) (s : String) (v : ℚ),
      e.tags "width:carriageway" = some s → pyFloat s = some v →
      (set_road_width e hdw cdw).map (fun r => r.width) =
        Except.ok (some v)) ∧
    (∀ (e : OsmElement) (hdw : Option HighwayDefaultWidths)
        (cdw : Option CyclewayDefaultWidths) (s : String) (v : ℚ),
      e.tags "width:carriageway" = none → e.tags "width" = some s →
      pyFloat s = some v →
      (set_road_width e hdw cdw).map (fun r => r.width) =
        Except.ok (some v)) := by
  constructor
  · intro e hdw cdw s v h1 h2
    simp [set_road_width, h1, pyFloatE, h2, Except.map]
  · intro e hdw cdw s v h1 h2 h3
    simp [set_road_width, h1, h2, pyFloatE, h3, Except.map]

/-- Witness for C3: an element with width:carriageway=2.5 and width=7
resolves to width 2.5 exactly; an element with only width=7 resolves to 7. -/
theorem claim3_witness :
    exBothWidths.tags "width:carriageway" = some "2.5" ∧
    pyFloat "2.5" = some (5 / 2) ∧
    (set_road_width exBothWidths none none).map (fun r => r.width) =
      Except.ok (some (5 / 2)) ∧
    exPlainWidth.tags "width:carriageway" = none ∧
    exPlainWidth.tags "width" = some "7" ∧
    pyFloat "7" = some 7 ∧
    (set_road_width exPlainWidth none none).map (fun r => r.width) =
      Except.ok (some 7) := by
  refine ⟨rfl, by with_unfolding_all rfl, ?_, rfl, rfl,
    by with_unfolding_all rfl, ?_⟩
  · exact claim3_declared_width_exact.1 exBothWidths none none "2.5" (5 / 2)
      rfl (by with_unfolding_all rfl)
  · exact claim3_declared_width_exact.2 exPlainWidth none none "7" 7
      rfl rfl (by with_unfolding_all rfl)

/-- Counterexample for C9: an element whose `lanes` tag is present and not
parseable but whose `width` tag parses: width resolution succeeds with the
declared width and raises no error, because the malformed `lanes` tag is
never consulted. -/
theorem claim9_counterexample :
    exGoodWidthBadLanes.tags "lanes" = some "abc" ∧
    pyFloat "abc" = none ∧
    (set_road_width exGoodWidthBadLanes none none).map (fun r => r.width) =
      Except.ok (some 5) := by
  refine ⟨rfl, by with_unfolding_all rfl, by with_unfolding_all rfl⟩

theorem estimate_error_of_bad_lanes :
    ∀ (e : OsmElement) (hdwt : HighwayDefaultWidths)
      (cdwt : CyclewayDefaultWidths) (s : String),
      e.tags "lanes" = some s → pyFloat s = none →
      ∃ m, estimate_road_width e hdwt cdwt = Except.error m := by
  intro e hdwt cdwt s h1 h2
  unfold estimate_road_width
  rcases hsd : set_default_highway_width e
      (if e.has_tag "oneway" then "uni-directional" else "bi-directional")
      hdwt with m | w
  · exact ⟨m, by simp [hsd]⟩
  · exact ⟨"ValueError: could not convert string to float: " ++ s,
      by simp [hsd, adapt_to_lanes, h1, h2]⟩

/-- C9 as amended: width resolution raises a parse error whenever the tag it
actually consults is malformed — a present `width:carriageway` tag; else a
present `width` tag; else, during estimation, a present `lanes` tag — and
never silently substitutes a default for a consulted malformed tag.  (A
malformed tag shadowed by a higher-priority parseable tag is never consulted:
see the counterexample.) -/
theorem claim9_amended :
    (∀ (e : OsmElement) (hdw : Option HighwayDefaultWidths)
        (cdw : Option CyclewayDefaultWidths) (s : String),
      e.tags "width:carriageway" = some s → pyFloat s = none →
      ∃ m, set_road_width e hdw cdw = Except.error m) ∧
    (∀ (e : OsmElement) (hdw : Option HighwayDefaultWidths)
        (cdw : Option CyclewayDefaultWidths) (s : String),
      e.tags "width:carriageway" = none → e.tags "width" = some s →
      pyFloat s = none →
      ∃ m, set_road_width e hdw cdw = Except.error m) ∧
    (∀ (e : OsmElement) (hdw : Option HighwayDefaultWidths)
        (cdw : Option CyclewayDefaultWidths) (s : String),
      e.tags "width:carriageway" = none → e.tags "width" = none →
      e.tags "lanes" = some s → pyFloat s = none →
      ∃ m, set_road_width e hdw cdw = Except.error m) := by
  refine ⟨?_, ?_, ?_⟩
  · intro e hdw cdw s h1 h2
    exact ⟨"ValueError: could not convert string to float: " ++ s,
      by simp [set_road_width, h1, pyFloatE, h2, Except.map]⟩
  · intro e hdw cdw s h1 h2 h3
    exact ⟨"ValueError: could not convert string to float: " ++ s,
      by simp [set_road_width, h1, h2, pyFloatE, h3, Except.map]⟩
  · intro e hdw cdw s h1 h2 h3 h4
    obtain ⟨m, hm⟩ := estimate_error_of_bad_lanes e
      (set_defaults hdw cdw).1 (set_defaults hdw cdw).2 s h3 h4
    exact ⟨m, by simp [set_road_width, h1, h2, hm, Except.map]⟩

/-- Witness for C9 (amended): a malformed `width:carriageway` tag makes width
resolution raise. -/
theorem claim9_witness :
    exBadCarriageway.tags "width:carriageway" = some "abc" ∧
    pyFloat "abc" = none ∧
    ∃ m, set_road_width exBadCarriageway none none = Except.error m := by
  refine ⟨rfl, by with_unfolding_all rfl, ?_⟩
  exact claim9_amended.1 exBadCarriageway none none "abc" rfl
    (by with_unfolding_all rfl)

/-- C7: the Set-Operation and Smoothing Stage computes exactly the specified
expression — the union of the traffic-area candidate polygons, minus the
union of the cropper geometries buffered by +0.3 then -0.3, the difference
then buffered by +1 (mitre), -1 (mitre), +0.5 (round), -0.5 (round) — and
returns it as one single geometry value carrying no element identity, not a
per-element collection. -/
theorem claim7_single_smoothed_geometry :
    ∀ (elements : List OsmElement) (inacc : List Geom)
      (buildings : List OsmElement) (hdw : Option HighwayDefaultWidths)
      (cdw : Option CyclewayDefaultWidths) (tg tb trg trb pw bw : ℚ)
      (es : List OsmElement) (g : Geom),
      get_traffic_areas_as_polygons elements inacc buildings hdw cdw
          tg tb trg trb pw bw = Except.ok (es, g) →
      ∃ ta : List OsmElement,
        get_traffic_areas elements hdw cdw tg tb trg trb =
          Except.ok (es, ta) ∧
        g = spec_set_operation_smoothing (ta.map (fun e => e.geom))
              (get_cropper_geometries es inacc buildings pw bw) := by
  intro elements inacc buildings hdw cdw tg tb trg trb pw bw es g h
  unfold get_traffic_areas_as_polygons at h
  rcases hta : get_traffic_areas elements hdw cdw tg tb trg trb with m | p
  · rw [hta] at h
    exact Except.noConfusion h
  · rw [hta] at h
    obtain ⟨es2, ta⟩ := p
    simp only [Except.ok.injEq, Prod.mk.injEq] at h
    obtain ⟨h1, h2⟩ := h
    subst h1
    subst h2
    exact ⟨ta, rfl, rfl⟩

/-- Witness for C7: the empty inputs — the pipeline succeeds and the returned
geometry is the specified set-operation expression over empty candidate and
cropper lists. -/
theorem claim7_witness :
    get_traffic_areas_as_polygons [] [] [] none none
        1.435 0.5 1.435 1.5 1.6 1.3 =
      Except.ok ([], spec_set_operation_smoothing [] []) ∧
    ∃ ta : List OsmElement,
      get_traffic_areas [] none none 1.435 0.5 1.435 1.5 =
        Except.ok ([], ta) ∧
      spec_set_operation_smoothing [] [] =
        spec_set_operation_smoothing (ta.map (fun e => e.geom))
          (get_cropper_geometries [] [] [] 1.6 1.3) := by
  have h : get_traffic_areas_as_polygons [] [] [] none none
      1.435 0.5 1.435 1.5 1.6 1.3 =
      Except.ok ([], spec_set_operation_smoothing [] []) := rfl
  exact ⟨h, claim7_single_smoothed_geometry [] [] [] none none
    1.435 0.5 1.435 1.5 1.6 1.3 [] (spec_set_operation_smoothing [] []) h⟩

theorem dictGet_mem {V : Type} :
    ∀ (l : List (String × V)) (k : String) (v : V),
      dictGet k l = some v → (k, v) ∈ l := by
  intro l
  induction l with
  | nil => intro k v h; exact Option.noConfusion h
  | cons kv rest ih =>
      intro k v h
      rcases kv with ⟨k2, v2⟩
      simp only [dictGet] at h
      by_cases hk : k = k2
      · rw [if_pos hk] at h
        injection h with h2
        subst hk
        subst h2
        exact List.mem_cons_self _ _
      · rw [if_neg hk] at h
        exact List.mem_cons_of_mem _ (ih k v h)

theorem default_highway_pairs_strict :
    ∀ p ∈ default_highway_widths, p.1 ≠ "pedestrian" → p.2.2 < p.2.1 := by
  with_unfolding_all decide

theorem everything_else_pair :
    dictGet "everything else" default_highway_widths = some (4.8, 3.1) := rfl

theorem set_default_widths_strict (hw : String) (hne : hw ≠ "pedestrian") :
    ∃ pu pb : ℚ, pu < pb ∧
      ∀ e : OsmElement, e.tags "highway" = some hw →
        set_default_highway_width e "uni-directional" default_highway_widths =
          Except.ok pu ∧
        set_default_highway_width e "bi-directional" default_highway_widths =
          Except.ok pb := by
  rcases hlk : dictGet hw default_highway_widths with _ | p
  · refine ⟨3.1, 4.8, by norm_num, ?_⟩
    intro e hh
    constructor
    · simp [set_default_highway_width, hh, hlk, everything_else_pair]
    · simp [set_default_highway_width, hh, hlk, everything_else_pair]
  · have hmem := dictGet_mem default_highway_widths hw p hlk
    have hstrict := default_highway_pairs_strict (hw, p) hmem hne
    refine ⟨p.2, p.1, hstrict, ?_⟩
    intro e hh
    constructor
    · simp [set_default_highway_width, hh, hlk]
    · simp [set_default_highway_width, hh, hlk]

theorem adapt_to_lanes_no_lanes (e : OsmElement) (w : ℚ) (d : String)
    (h : e.tags "lanes" = none) : adapt_to_lanes e w d = Except.ok w := by
  simp [adapt_to_lanes, h]

theorem cyc_step_eq (e : OsmElement) (w : ℚ)
    (kv : String × List (String × ℚ)) :
    (match e.tags kv.1 with
      | some v =>
          match dictGet v kv.2 with
          | some cw => w + cw
          | none => w
      | none => w) =
    w + (match e.tags kv.1 with
      | some v =>
          match dictGet v kv.2 with
          | some cw => cw
          | none => 0
      | none => 0) := by
  rcases h1 : e.tags kv.1 with _ | v
  · simp
  · rcases h2 : dictGet v kv.2 with _ | cw <;> simp [h2]

theorem cyc_foldl_shift (e : OsmElement) :
    ∀ (l : CyclewayDefaultWidths) (w : ℚ),
      l.foldl (fun w kv =>
        match e.tags kv.1 with
        | some v =>
            match dictGet v kv.2 with
            | some cw => w + cw
            | none => w
        | none => w) w =
      w + l.foldl (fun w kv =>
        match e.tags kv.1 with
        | some v =>
            match dictGet v kv.2 with
            | some cw => w + cw
            | none => w
        | none => w) 0 := by
  intro l
  induction l with
  | nil => intro w; simp
  | cons kv rest ih =>
      intro w
      simp only [List.foldl_cons]
      conv_lhs => rw [ih]
      conv_rhs => rw [ih]
      rw [cyc_step_eq e w kv, cyc_step_eq e 0 kv]
      ring

theorem add_cycleway_shift (e : OsmElement) (cdw : CyclewayDefaultWidths)
    (w : ℚ) : add_cycleway e w cdw = w + add_cycleway e 0 cdw := by
  simp only [add_cycleway]
  by_cases hc : (match e.tags "highway" with
    | some h => dictContains h cdw
    | none => false) = true
  · simp [hc]
  · simp only [Bool.not_eq_true] at hc
    simp only [hc, Bool.false_eq_true, if_false]
    exact cyc_foldl_shift e cdw w

theorem add_parking_shift (e : OsmElement) (w : ℚ) (ts : List String)
    (pw : ℚ) :
    add_parking e w ts pw =
      w + (match e.tags "highway" with
        | some h => if ts.contains h then pw else 0
        | none => 0) := by
  simp only [add_parking]
  rcases h : e.tags "highway" with _ | hh
  · simp
  · by_cases hm : hh ∈ ts <;> simp [hm]

theorem estimate_uni_lt_bi (e1 e2 : OsmElement) (hw : String)
    (h1hw : e1.tags "highway" = some hw) (h2hw : e2.tags "highway" = some hw)
    (hne : hw ≠ "pedestrian")
    (h1one : e1.has_tag "oneway" = true) (h2one : e2.has_tag "oneway" = false)
    (h1lanes : e1.tags "lanes" = none) (h2lanes : e2.tags "lanes" = none)
    (hagree : ∀ k, k ≠ "oneway" → e1.tags k = e2.tags k) :
    ∃ wu wb : ℚ,
      estimate_road_width e1 default_highway_widths default_cycleway_widths =
        Except.ok wu ∧
      estimate_road_width e2 default_highway_widths default_cycleway_widths =
        Except.ok wb ∧ wu < wb := by
  obtain ⟨pu, pb, hlt, hbase⟩ := set_default_widths_strict hw hne
  obtain ⟨hpu, _⟩ := hbase e1 h1hw
  obtain ⟨_, hpb⟩ := hbase e2 h2hw
  have est1 : estimate_road_width e1 default_highway_widths
      default_cycleway_widths =
      Except.ok (add_parking e1 (add_cycleway e1 pu default_cycleway_widths)
        highway_types_for_default_streetside_parking default_parking_width) := by
    simp [estimate_road_width, h1one, hpu,
      adapt_to_lanes_no_lanes e1 pu "uni-directional" h1lanes]
  have est2 : estimate_road_width e2 default_highway_widths
      default_cycleway_widths =
      Except.ok (add_parking e2 (add_cycleway e2 pb default_cycleway_widths)
        highway_types_for_default_streetside_parking default_parking_width) := by
    simp [estimate_road_width, h2one, hpb,
      adapt_to_lanes_no_lanes e2 pb "bi-directional" h2lanes]
  refine ⟨_, _, est1, est2, ?_⟩
  have ceq : add_cycleway e1 0 default_cycleway_widths =
      add_cycleway e2 0 default_cycleway_widths := by
    simp only [add_cycleway, default_cycleway_widths, dictContains,
      List.foldl_cons, List.foldl_nil]
    rw [hagree "cycleway" (by decide), hagree "cycleway:right" (by decide),
      hagree "cycleway:both" (by decide), hagree "cycleway:left" (by decide),
      h1hw, h2hw]
  rw [add_parking_shift, add_parking_shift, add_cycleway_shift e1,
    add_cycleway_shift e2, ceq, h1hw, h2hw]
  linarith

/-- Counterexample for C4: the default width pair for highway type
`pedestrian` is (2, 2), so with a `oneway` tag the estimated width equals —
is not strictly less than — the estimate without it. -/
theorem claim4_counterexample :
    exPedestrianOneway.tags "oneway" = some "yes" ∧
    exPedestrianTwoway.tags "oneway" = none ∧
    (set_road_width exPedestrianOneway none none).map (fun r => r.width) =
      Except.ok (some 2) ∧
    (set_road_width exPedestrianTwoway none none).map (fun r => r.width) =
      Except.ok (some 2) ∧
    ¬ ((2 : ℚ) < 2) := by
  refine ⟨rfl, rfl, by with_unfolding_all rfl, by with_unfolding_all rfl,
    by norm_num⟩

/-- C4 as amended: for every highway element lacking `width`,
`width:carriageway` and `lanes` tags, whose highway type is not `pedestrian`
(whose default pair is (2, 2)), under the default configuration tables the
estimated width with a `oneway` tag present is strictly less than the
estimate for the same tags without it. -/
theorem claim4_amended :
    ∀ (t : String → Option String) (g : Geom) (w0 : Option ℚ)
      (sp : Option String) (hw ov : String),
      t "width:carriageway" = none → t "width" = none → t "lanes" = none →
      t "oneway" = none → t "highway" = some hw → hw ≠ "pedestrian" →
      ∃ wu wb : ℚ,
        (set_road_width ⟨addTag t "oneway" ov, g, w0, sp⟩ none none).map
            (fun r => r.width) = Except.ok (some wu) ∧
        (set_road_width ⟨t, g, w0, sp⟩ none none).map
            (fun r => r.width) = Except.ok (some wb) ∧
        wu < wb := by
  intro t g w0 sp hw ov h1 h2 h3 h4 h5 h6
  have u1 : (⟨addTag t "oneway" ov, g, w0, sp⟩ : OsmElement).tags
      "width:carriageway" = none := by simp [addTag, h1]
  have u2 : (⟨addTag t "oneway" ov, g, w0, sp⟩ : OsmElement).tags "width" =
      none := by simp [addTag, h2]
  have u3 : (⟨addTag t "oneway" ov, g, w0, sp⟩ : OsmElement).tags "lanes" =
      none := by simp [addTag, h3]
  have u5 : (⟨addTag t "oneway" ov, g, w0, sp⟩ : OsmElement).tags "highway" =
      some hw := by simp [addTag, h5]
  have du : (⟨addTag t "oneway" ov, g, w0, sp⟩ : OsmElement).has_tag
      "oneway" = true := by simp [OsmElement.has_tag, addTag]
  have db : (⟨t, g, w0, sp⟩ : OsmElement).has_tag "oneway" = false := by
    simp [OsmElement.has_tag, h4]
  have hagree : ∀ k, k ≠ "oneway" →
      (⟨addTag t "oneway" ov, g, w0, sp⟩ : OsmElement).tags k =
        (⟨t, g, w0, sp⟩ : OsmElement).tags k := by
    intro k hk
    simp [addTag, hk]
  obtain ⟨wu, wb, hu, hb, hlt⟩ := estimate_uni_lt_bi
    ⟨addTag t "oneway" ov, g, w0, sp⟩ ⟨t, g, w0, sp⟩ hw u5 h5 h6 du db u3 h3
    hagree
  refine ⟨wu, wb, ?_, ?_, hlt⟩
  · simp [set_road_width, addTag, h1, h2, set_defaults, hu, Except.map]
  · simp [set_road_width, h1, h2, set_defaults, hb, Except.map]

/-- Witness for C4 (amended): a residential road; with `oneway` the estimate
is 3 + 6.5 = 9.5, without it 4.5 + 6.5 = 11, and 9.5 < 11. -/
theorem claim4_witness :
    (tagsOf [("highway", "residential")]) "lanes" = none ∧
    ∃ wu wb : ℚ,
      (set_road_width
          ⟨addTag (tagsOf [("highway", "residential")]) "oneway" "yes",
            Geom.linestring "x", none, none⟩ none none).map
          (fun r => r.width) = Except.ok (some wu) ∧
      (set_road_width
          ⟨tagsOf [("highway", "residential")], Geom.linestring "x",
            none, none⟩ none none).map
          (fun r => r.width) = Except.ok (some wb) ∧
      wu < wb := by
  refine ⟨rfl, ?_⟩
  exact claim4_amended (tagsOf [("highway", "residential")])
    (Geom.linestring "x") none none "residential" "yes" rfl rfl rfl rfl rfl
    (by decide)

theorem set_road_width_frame :
    ∀ (e : OsmElement) (hdw : Option HighwayDefaultWidths)
      (cdw : Option CyclewayDefaultWidths) (e2 : OsmElement),
      set_road_width e hdw cdw = Except.ok e2 →
      e2.tags = e.tags ∧ e2.geom = e.geom ∧ e2.space_type = e.space_type := by
  intro e hdw cdw e2 h
  unfold set_road_width at h
  rcases h1 : e.tags "width:carriageway" with _ | s
  · simp only [h1] at h
    rcases h2 : e.tags "width" with _ | s
    · simp only [h2] at h
      rcases h3 : estimate_road_width e (set_defaults hdw cdw).1
          (set_defaults hdw cdw).2 with m | v
      · simp only [h3, Except.map] at h
        exact Except.noConfusion h
      · simp only [h3, Except.map, Except.ok.injEq] at h
        subst h
        exact ⟨rfl, rfl, rfl⟩
    · simp only [h2] at h
      rcases h3 : pyFloatE s with m | v
      · simp only [h3, Except.map] at h
        exact Except.noConfusion h
      · simp only [h3, Except.map, Except.ok.injEq] at h
        subst h
        exact ⟨rfl, rfl, rfl⟩
  · simp only [h1] at h
    rcases h3 : pyFloatE s with m | v
    · simp only [h3, Except.map] at h
      exact Except.noConfusion h
    · simp only [h3, Except.map, Except.ok.injEq] at h
      subst h
      exact ⟨rfl, rfl, rfl⟩

theorem highwayStep_inv :
    ∀ (hdw : Option HighwayDefaultWidths) (cdw : Option CyclewayDefaultWidths)
      (e e2 : OsmElement) (p : Option OsmElement),
      highwayStep hdw cdw e = Except.ok (e2, p) →
      e2.tags = e.tags ∧ e2.geom = e.geom ∧
      (e.has_tag "highway" = true →
        ¬(is_pedestrian_way e = true ∧ is_crossing e = true) →
        e2.space_type ≠ none) := by
  intro hdw cdw e e2 p h
  by_cases hhw : e.has_tag "highway" = true
  · simp only [highwayStep, hhw, if_true] at h
    by_cases hped : is_pedestrian_way e = true
    · simp only [hped, if_true] at h
      by_cases hcr : is_crossing e = true
      · simp only [hcr, Bool.not_true, Bool.false_eq_true, if_false] at h
        injection h with h1
        injection h1 with ha hb
        subst ha
        exact ⟨rfl, rfl, fun _ hnc => absurd ⟨hped, hcr⟩ hnc⟩
      · simp only [Bool.not_eq_true] at hcr
        simp only [hcr, Bool.not_false, if_true] at h
        injection h with h1
        injection h1 with ha hb
        subst ha
        exact ⟨rfl, rfl, fun _ _ => by simp⟩
    · simp only [Bool.not_eq_true] at hped
      simp only [hped, Bool.false_eq_true, if_false] at h
      by_cases hirr : is_irrelevant_highway e = true
      · simp only [hirr, if_true] at h
        injection h with h1
        injection h1 with ha hb
        subst ha
        exact ⟨rfl, rfl, fun _ _ => by simp⟩
      · simp only [Bool.not_eq_true] at hirr
        simp only [hirr, Bool.false_eq_true, if_false] at h
        by_cases hls : e.is_linestring = true
        · simp only [hls, if_true] at h
          rcases hsw : set_road_width e hdw cdw with m | e3
          · simp only [hsw] at h
            exact Except.noConfusion h
          · simp only [hsw] at h
            injection h with h1
            injection h1 with ha hb
            subst ha
            obtain ⟨ft, fg, _⟩ := set_road_width_frame e hdw cdw e3 hsw
            exact ⟨ft, fg, fun _ _ => by simp⟩
        · simp only [Bool.not_eq_true] at hls
          simp only [hls, Bool.false_eq_true, if_false] at h
          injection h with h1
          injection h1 with ha hb
          subst ha
          exact ⟨rfl, rfl, fun _ _ => by simp⟩
  · simp only [Bool.not_eq_true] at hhw
    simp only [highwayStep, hhw, Bool.false_eq_true, if_false] at h
    injection h with h1
    injection h1 with ha hb
    subst ha
    refine ⟨rfl, rfl, fun hcon _ => ?_⟩
    rw [hhw] at hcon
    exact Bool.noConfusion hcon

theorem railwayStep_inv :
    ∀ (tg tb trg trb : ℚ) (e : OsmElement),
      ((railwayStep tg tb trg trb e).1.tags = e.tags ∧
        (railwayStep tg tb trg trb e).1.geom = e.geom) ∧
      ((railwayStep tg tb trg trb e).1.space_type = e.space_type ∨
        (railwayStep tg tb trg trb e).1.space_type = some "traffic area") ∧
      (e.is_linestring = true → e.has_tag "railway" = true →
        ¬ e.tags "railway" = some "platform" →
        (railwayStep tg tb trg trb e).1.space_type = some "traffic area") := by
  intro tg tb trg trb e
  by_cases hc : (e.is_linestring && e.has_tag "railway") = true
  · by_cases h1 : e.tags "railway" = some "tram"
    · have h3 : ¬ e.tags "railway" = some "platform" := by simp [h1]
      simp [railwayStep, hc, h1, h3]
    · by_cases h2 : e.tags "railway" = some "rail"
      · have h3 : ¬ e.tags "railway" = some "platform" := by simp [h2]
        simp [railwayStep, hc, h1, h2, h3]
      · by_cases h3 : e.tags "railway" = some "platform"
        · simp [railwayStep, hc, h1, h2, h3]
        · simp [railwayStep, hc, h1, h2, h3]
  · have hre : railwayStep tg tb trg trb e = (e, none) := by
      simp [railwayStep, hc]
    rw [hre]
    have hc2 : ¬(e.is_linestring = true ∧ e.has_tag "railway" = true) := by
      rw [← Bool.and_eq_true]
      exact hc
    exact ⟨⟨rfl, rfl⟩, Or.inl rfl, fun hl hr _ => absurd ⟨hl, hr⟩ hc2⟩

theorem polygonize_highways_pointwise
    (hdw : Option HighwayDefaultWidths) (cdw : Option CyclewayDefaultWidths) :
    ∀ (l l2 ps : List OsmElement),
      polygonize_highways hdw cdw l = Except.ok (l2, ps) →
      l2.length = l.length ∧
      ∀ i (h1 : i < l.length) (h2 : i < l2.length),
        ∃ p, highwayStep hdw cdw (l.get ⟨i, h1⟩) =
          Except.ok (l2.get ⟨i, h2⟩, p) := by
  intro l
  induction l with
  | nil =>
      intro l2 ps h
      simp only [polygonize_highways] at h
      injection h with h1
      injection h1 with ha hb
      subst ha
      exact ⟨rfl, fun i h1 => absurd h1 (Nat.not_lt_zero i)⟩
  | cons e rest ih =>
      intro l2 ps h
      simp only [polygonize_highways] at h
      rcases hs : highwayStep hdw cdw e with m | ep
      · simp only [hs] at h
        exact Except.noConfusion h
      · simp only [hs] at h
        rcases ep with ⟨e2, p⟩
        rcases hr : polygonize_highways hdw cdw rest with m | rp
        · simp only [hr] at h
          exact Except.noConfusion h
        · simp only [hr] at h
          rcases rp with ⟨rest2, ps2⟩
          injection h with h1
          injection h1 with ha hb
          subst ha
          obtain ⟨ihlen, ihget⟩ := ih rest2 ps2 hr
          constructor
          · simp [ihlen]
          · intro i hi1 hi2
            cases i with
            | zero => exact ⟨p, hs⟩
            | succ n =>
                exact ihget n (Nat.lt_of_succ_lt_succ hi1)
                  (Nat.lt_of_succ_lt_succ hi2)

theorem polygonize_railways_fst (tg tb trg trb : ℚ) :
    ∀ l : List OsmElement,
      (polygonize_railways tg tb trg trb l).1 =
        l.map (fun e => (railwayStep tg tb trg trb e).1) := by
  intro l
  induction l with
  | nil => rfl
  | cons e rest ih =>
      simp [polygonize_railways, ih]

theorem get_traffic_areas_inv :
    ∀ (elements : List OsmElement) (hdw : Option HighwayDefaultWidths)
      (cdw : Option CyclewayDefaultWidths) (tg tb trg trb : ℚ)
      (es ta : List OsmElement),
      get_traffic_areas elements hdw cdw tg tb trg trb = Except.ok (es, ta) →
      ∃ es1 hp, polygonize_highways hdw cdw elements = Except.ok (es1, hp) ∧
        es = (polygonize_railways tg tb trg trb es1).1 := by
  intro elements hdw cdw tg tb trg trb es ta h
  simp only [get_traffic_areas] at h
  rcases hph : polygonize_highways hdw cdw elements with m | p
  · simp only [hph] at h
    exact Except.noConfusion h
  · simp only [hph] at h
    rcases p with ⟨es1, hp⟩
    refine ⟨es1, hp, rfl, ?_⟩
    injection h with h1
    injection h1 with ha hb
    exact ha.symm

theorem pipeline_elements_inv :
    ∀ (elements : List OsmElement) (inacc : List Geom)
      (buildings : List OsmElement) (hdw : Option HighwayDefaultWidths)
      (cdw : Option CyclewayDefaultWidths) (tg tb trg trb pw bw : ℚ)
      (es : List OsmElement) (g : Geom),
      get_traffic_areas_as_polygons elements inacc buildings hdw cdw
          tg tb trg trb pw bw = Except.ok (es, g) →
      ∃ ta, get_traffic_areas elements hdw cdw tg tb trg trb =
        Except.ok (es, ta) := by
  intro elements inacc buildings hdw cdw tg tb trg trb pw bw es g h
  unfold get_traffic_areas_as_polygons at h
  rcases hta : get_traffic_areas elements hdw cdw tg tb trg trb with m | p
  · rw [hta] at h
    exact Except.noConfusion h
  · rw [hta] at h
    obtain ⟨es2, ta⟩ := p
    simp only [Except.ok.injEq, Prod.mk.injEq] at h
    exact ⟨ta, by rw [h.1]⟩

theorem is_linestring_congr (a b : OsmElement) (h : a.geom = b.geom) :
    a.is_linestring = b.is_linestring := by
  unfold OsmElement.is_linestring
  rw [h]

theorem has_tag_congr (a b : OsmElement) (k : String) (h : a.tags = b.tags) :
    a.has_tag k = b.has_tag k := by
  unfold OsmElement.has_tag
  rw [h]

/-- C1 as amended: after `get_traffic_areas_as_polygons` returns, every
element carrying a highway tag has its space_type set unless it is a
pedestrian way that is also a crossing (those are left unset — see the C2
bug), and every linestring element carrying a railway tag other than
`platform` has space_type "traffic area".  Platform railways, non-linestring
railway elements and crossing pedestrian ways may remain unset. -/
theorem claim1_amended :
    ∀ (elements : List OsmElement) (inacc : List Geom)
      (buildings : List OsmElement) (hdw : Option HighwayDefaultWidths)
      (cdw : Option CyclewayDefaultWidths) (tg tb trg trb pw bw : ℚ)
      (es : List OsmElement) (g : Geom),
      get_traffic_areas_as_polygons elements inacc buildings hdw cdw
          tg tb trg trb pw bw = Except.ok (es, g) →
      es.length = elements.length ∧
      ∀ i (h1 : i < elements.length) (h2 : i < es.length),
        ((elements.get ⟨i, h1⟩).has_tag "highway" = true →
          ¬(is_pedestrian_way (elements.get ⟨i, h1⟩) = true ∧
            is_crossing (elements.get ⟨i, h1⟩) = true) →
          (es.get ⟨i, h2⟩).space_type ≠ none) ∧
        ((elements.get ⟨i, h1⟩).is_linestring = true →
          (elements.get ⟨i, h1⟩).has_tag "railway" = true →
          ¬ (elements.get ⟨i, h1⟩).tags "railway" = some "platform" →
          (es.get ⟨i, h2⟩).space_type = some "traffic area") := by
  intro elements inacc buildings hdw cdw tg tb trg trb pw bw es g h
  obtain ⟨ta, hta⟩ := pipeline_elements_inv elements inacc buildings hdw cdw
    tg tb trg trb pw bw es g h
  obtain ⟨es1, hp, hph, hes⟩ := get_traffic_areas_inv elements hdw cdw
    tg tb trg trb es ta hta
  obtain ⟨hlen1, hget1⟩ := polygonize_highways_pointwise hdw cdw elements
    es1 hp hph
  have hesmap : es = es1.map (fun e => (railwayStep tg tb trg trb e).1) := by
    rw [hes, polygonize_railways_fst]
  have hlen : es.length = elements.length := by
    rw [hesmap, List.length_map, hlen1]
  refine ⟨hlen, ?_⟩
  intro i h1 h2
  have h2b : i < es1.length := by rw [hlen1]; exact h1
  have hget : es.get ⟨i, h2⟩ =
      (railwayStep tg tb trg trb (es1.get ⟨i, h2b⟩)).1 := by
    subst hesmap
    simp [List.get_eq_getElem, List.getElem_map]
  obtain ⟨p, hstep⟩ := hget1 i h1 h2b
  obtain ⟨hst, hsg, hset⟩ := highwayStep_inv hdw cdw (elements.get ⟨i, h1⟩)
    (es1.get ⟨i, h2b⟩) p hstep
  obtain ⟨⟨rt, rg⟩, rpres, rtraffic⟩ :=
    railwayStep_inv tg tb trg trb (es1.get ⟨i, h2b⟩)
  constructor
  · intro hhw hnc
    have hne : (es1.get ⟨i, h2b⟩).space_type ≠ none := hset hhw hnc
    rw [hget]
    rcases rpres with hp1 | hp2
    · rw [hp1]
      exact hne
    · rw [hp2]
      simp
  · intro hl hr hpn
    rw [hget]
    apply rtraffic
    · rw [is_linestring_congr (es1.get ⟨i, h2b⟩) (elements.get ⟨i, h1⟩) hsg]
      exact hl
    · rw [has_tag_congr (es1.get ⟨i, h2b⟩) (elements.get ⟨i, h1⟩) "railway"
        hst]
      exact hr
    · rw [hst]
      exact hpn

/-- Witness for C1 (amended): a single residential highway linestring — the
pipeline succeeds, the element ends with width 11 (4.5 roadway + 6.5
parking) and space_type "traffic area", which is not unset. -/
theorem claim1_witness :
    get_traffic_areas_as_polygons [exResidential] [] [] none none
        1.435 0.5 1.435 1.5 1.6 1.3 =
      Except.ok
        ([{ { exResidential with width := some 11 } with
            space_type := some "traffic area" }],
          smooth_traffic_areas (Geom.difference
            (unary_union [Geom.buffer (Geom.linestring "r1") (11 / 2)
              CapStyle.flat JoinStyle.round])
            (Geom.buffer (Geom.buffer (unary_union []) (3 / 10)
              CapStyle.round JoinStyle.round) (-(3 / 10)) CapStyle.round
              JoinStyle.round))) ∧
    exResidential.has_tag "highway" = true ∧
    ([{ { exResidential with width := some 11 } with
        space_type := some "traffic area" }].get
      ⟨0, Nat.zero_lt_one⟩).space_type ≠ none := by
  have h : get_traffic_areas_as_polygons [exResidential] [] [] none none
      1.435 0.5 1.435 1.5 1.6 1.3 =
      Except.ok
        ([{ { exResidential with width := some 11 } with
            space_type := some "traffic area" }],
          smooth_traffic_areas (Geom.difference
            (unary_union [Geom.buffer (Geom.linestring "r1") (11 / 2)
              CapStyle.flat JoinStyle.round])
            (Geom.buffer (Geom.buffer (unary_union []) (3 / 10)
              CapStyle.round JoinStyle.round) (-(3 / 10)) CapStyle.round
              JoinStyle.round))) := by with_unfolding_all rfl
  refine ⟨h, rfl, ?_⟩
  have hh := (claim1_amended [exResidential] [] []
    none none 1.435 0.5 1.435 1.5 1.6 1.3 _ _ h).2 0 Nat.zero_lt_one
    Nat.zero_lt_one
  exact hh.1 rfl (fun hc => absurd hc.1 (by decide))
